import Mathlib

/-!
# Verification of the Sui DApp transaction orchestration layer

Shallow embedding of the transaction request/response orchestration layer of
the `dapp-test` repository: the transaction builders and error classifier of
`src/lib/transactionUtils.ts`, the confirmation poller `waitForTransaction`,
and the operation hooks (`useMintNFT.mintNFT`, `useLevelUp.levelUp`,
`useCoinSplit.splitCoin`).

Modelling conventions:
* JavaScript failure values (`unknown`) are modelled by `JsVal`: either an
  `Error` instance carrying a `message` (and further fields abstracted as
  `stack`), or any non-`Error` value carried opaquely.
* `String.prototype.includes` is modelled by `strIncludes` (case-sensitive
  substring containment, exactly as in JavaScript).
* Asynchronous signing is modelled by a signer function from the built
  transaction to `Except JsVal SignerOk`: an `Except.error` is a rejected
  promise, an `Except.ok` a resolved one.
* React state updates (`setIsLoading`, `setError`) are modelled by recording
  the state that holds while the invocation is pending and the state that
  holds after the `finally` clause ran (`OpTrace`).
* The poller is modelled in discrete time: each loop iteration takes exactly
  the 1000 ms of its trailing sleep and queries are instantaneous, so
  iteration `i` starts at elapsed time `1000·i` ms and the `while` guard
  `elapsed < timeoutMs` admits exactly `⌈timeoutMs / 1000⌉` iterations.
-/

namespace DappTest

/-- `leadsWith hay sub` is true iff `sub` is a prefix of `hay`
(character-by-character comparison). -/
def leadsWith : List Char → List Char → Bool
  | _, [] => true
  | [], _ :: _ => false
  | a :: as, b :: bs => a == b && leadsWith as bs

/-- `containsSub hay sub` is true iff `sub` occurs contiguously in `hay`. -/
def containsSub : List Char → List Char → Bool
  | [], sub => sub.isEmpty
  | a :: t, sub => leadsWith (a :: t) sub || containsSub t sub

/-- Model of JavaScript `hay.includes(sub)`: case-sensitive substring test. -/
def strIncludes (hay sub : String) : Bool :=
  containsSub hay.data sub.data

/-- A JavaScript value thrown or used as a promise-rejection reason: either an
`Error` instance (with its `message`, remaining fields abstracted into
`stack`) or an arbitrary non-`Error` value carried opaquely. -/
inductive JsVal where
  | jsError (message : String) (stack : String)
  | other (payload : String)
  deriving DecidableEq, Repr

/-- The `SuiError` record returned by `handleTransactionError`
(`src/types/sui`): user-facing `message`, error `code`, and the original
failure retained in `details`. -/
structure SuiError where
  message : String
  code : String
  details : JsVal
  deriving DecidableEq, Repr

/-- Embedding of `handleTransactionError` (src/lib/transactionUtils.ts,
lines 146–201): `error instanceof Error` keys the outer branch, then the
message is tested with `String.prototype.includes` against five literal
substrings in source order; the fallback returns the original message with
code `TRANSACTION_ERROR`; a non-`Error` value yields `UNKNOWN_ERROR` with a
generic message. Every branch stores the original failure in `details`. -/
def handleTransactionError (error : JsVal) : SuiError :=
  match error with
  | .jsError msg _ =>
    if strIncludes msg "Insufficient funds" then
      { message := "Insufficient SUI balance to complete the transaction"
        code := "INSUFFICIENT_FUNDS", details := error }
    else if strIncludes msg "Gas budget" then
      { message := "Transaction requires more gas than available"
        code := "GAS_BUDGET_ERROR", details := error }
    else if strIncludes msg "No valid gas coins found" then
      { message := "No separate coin available for gas fees. You may need more SUI coins or a larger balance."
        code := "NO_GAS_COINS", details := error }
    else if strIncludes msg "Object not found" then
      { message := "The requested object was not found on the blockchain"
        code := "OBJECT_NOT_FOUND", details := error }
    else if strIncludes msg "User rejected" then
      { message := "Transaction was rejected by the user"
        code := "USER_REJECTED", details := error }
    else
      { message := msg, code := "TRANSACTION_ERROR", details := error }
  | .other _ =>
    { message := "An unknown error occurred during the transaction"
      code := "UNKNOWN_ERROR", details := error }

/-- The ordered substring/code/message table of the classifier, as the spec
describes it in §4.2 (amended to the code's case-sensitive literals): an
ordered list of (substring, code, fixed message) tuples, first match wins. -/
def errorTable : List (String × String × String) :=
  [("Insufficient funds", "INSUFFICIENT_FUNDS",
      "Insufficient SUI balance to complete the transaction"),
   ("Gas budget", "GAS_BUDGET_ERROR",
      "Transaction requires more gas than available"),
   ("No valid gas coins found", "NO_GAS_COINS",
      "No separate coin available for gas fees. You may need more SUI coins or a larger balance."),
   ("Object not found", "OBJECT_NOT_FOUND",
      "The requested object was not found on the blockchain"),
   ("User rejected", "USER_REJECTED",
      "Transaction was rejected by the user")]

/-- Spec-side classification of an `Error` message, written from the amended
claim: look up the first table entry whose substring occurs in the message
(case-sensitively) and return its (code, fixed message); if none matches,
return `TRANSACTION_ERROR` with the original message verbatim. -/
def specClassify (msg : String) : String × String :=
  match errorTable.find? (fun t => strIncludes msg t.1) with
  | some (_, code, fixedMsg) => (code, fixedMsg)
  | none => ("TRANSACTION_ERROR", msg)

-- ===========================================================================
-- Transaction builders (src/lib/transactionUtils.ts, lines 40–120)
-- ===========================================================================

/-- The coin a `splitCoins` command draws from: either the implicit gas coin
(`tx.gas`) or a named coin object (`tx.object(id)`). -/
inductive CoinSource where
  | gas
  | object (id : String)
  deriving DecidableEq, Repr

/-- An argument of a Move call: a pure string value or an object reference. -/
inductive TxArg where
  | pureString (s : String)
  | objectRef (id : String)
  deriving DecidableEq, Repr

/-- One command recorded in a programmable transaction. `transferObjects`
refers to the objects produced by earlier commands by their index. -/
inductive TxCommand where
  | moveCall (target : String) (args : List TxArg)
  | splitCoins (source : CoinSource) (amounts : List String)
  | transferObjects (objs : List Nat) (recipient : String)
  deriving DecidableEq, Repr

/-- A built transaction: the ordered list of its commands. -/
structure Transaction where
  commands : List TxCommand
  deriving DecidableEq, Repr

/-- `CONTRACT_FUNCTIONS.MINT` from src/lib/constants.ts (with the default
package id). -/
def MINT_TARGET : String :=
  "0x95ea5e48398629b9e21b47bd43ae04174ac3e310b54fb961d780b856b3eaf1a3::simple_nft::mint"

/-- `CONTRACT_FUNCTIONS.LEVEL_UP` from src/lib/constants.ts. -/
def LEVEL_UP_TARGET : String :=
  "0x95ea5e48398629b9e21b47bd43ae04174ac3e310b54fb961d780b856b3eaf1a3::simple_nft::level_up"

/-- The NFT metadata record `MintNFTData`. -/
structure MintNFTData where
  name : String
  description : String
  image_url : String
  deriving DecidableEq, Repr

/-- Embedding of `createMintNFTTransaction`: a single Move call to the mint
target with the three metadata strings as pure arguments. -/
def createMintNFTTransaction (data : MintNFTData) : Transaction :=
  { commands := [.moveCall MINT_TARGET
      [.pureString data.name, .pureString data.description,
       .pureString data.image_url]] }

/-- Embedding of `createLevelUpTransaction`: a single Move call to the
level-up target with the NFT object as its only argument. -/
def createLevelUpTransaction (nftId : String) : Transaction :=
  { commands := [.moveCall LEVEL_UP_TARGET [.objectRef nftId]] }

/-- Embedding of `createCoinSplitTransaction` (src/lib/transactionUtils.ts,
lines 99–120): splits `amount` from the gas coin (`tx.splitCoins(tx.gas,
[amount])`); if a recipient is given, transfers the split coin (the object
produced by command 0) to it. The `coinObjectId` parameter appears in the
signature but is not used in the body, exactly as in the source. -/
def createCoinSplitTransaction (coinObjectId : String) (amount : String)
    (recipient : Option String) : Transaction :=
  let base := [TxCommand.splitCoins .gas [amount]]
  match recipient with
  | some r => { commands := base ++ [.transferObjects [0] r] }
  | none => { commands := base }

-- ===========================================================================
-- Confirmation poller (src/lib/transactionUtils.ts, lines 266–300)
-- ===========================================================================

/-- The settlement status a successful `getTransactionBlock` query reports:
`effects.status.status` is `success` (with the full result payload abstracted
as a string), `failure` (with the remote `effects.status.error` reason), or
anything else (effects absent or a non-terminal status), here `pending`. -/
inductive TxStatus where
  | success (payload : String)
  | failure (reason : String)
  | pending
  deriving DecidableEq, Repr

/-- One interaction with the read capability: the query resolves with a
status, or it rejects with a thrown value. -/
inductive QueryOutcome where
  | ok (status : TxStatus)
  | threw (e : JsVal)
  deriving DecidableEq, Repr

/-- What one iteration of the polling loop decides. -/
inductive PollStep where
  | done (payload : String)
  | fail (e : JsVal)
  | continuePolling
  deriving DecidableEq, Repr

/-- The body of `waitForTransaction`'s `while` loop, as the source executes
it for one query outcome:
* a `success` status returns the payload;
* a `failure` status throws `Error("Transaction failed: " + reason)` — but
  that throw happens inside the `try`, so the surrounding `catch` sees it
  and swallows it (continuing to poll) whenever its message contains
  `"not found"`;
* any other status falls through to the sleep and the loop continues;
* a query rejection that is an `Error` without `"not found"` in its message
  is rethrown out of the loop; an `Error` with `"not found"`, or any
  non-`Error` value, is swallowed and the loop continues. -/
def pollStep (q : QueryOutcome) : PollStep :=
  match q with
  | .ok (.success p) => .done p
  | .ok (.failure reason) =>
    if strIncludes ("Transaction failed: " ++ reason) "not found" then
      .continuePolling
    else
      .fail (.jsError ("Transaction failed: " ++ reason) "")
  | .ok .pending => .continuePolling
  | .threw (.jsError m s) =>
    if strIncludes m "not found" then .continuePolling
    else .fail (.jsError m s)
  | .threw (.other _) => .continuePolling

/-- The polling loop in discrete time. `client i` is the outcome of the
`i`-th query (queries are numbered from 0), `fuel` is the number of loop
iterations the `while` guard still admits. The result carries the number of
queries issued; exhausted fuel throws the timeout error. -/
def pollGo (client : Nat → QueryOutcome) :
    Nat → Nat → Except (JsVal × Nat) (String × Nat)
  | i, 0 => .error (.jsError "Transaction confirmation timeout" "", i)
  | i, fuel + 1 =>
    match pollStep (client i) with
    | .done p => .ok (p, i + 1)
    | .fail e => .error (e, i + 1)
    | .continuePolling => pollGo client (i + 1) fuel

/-- Embedding of `waitForTransaction`: iteration `i` runs at elapsed time
`1000·i` ms and the guard `Date.now() - startTime < timeoutMs` admits it iff
`1000·i < timeoutMs`, i.e. exactly `⌈timeoutMs/1000⌉` iterations (30 at the
default `timeoutMs = 30000`). -/
def waitForTransaction (client : Nat → QueryOutcome) (timeoutMs : Nat) :
    Except (JsVal × Nat) (String × Nat) :=
  pollGo client 0 ((timeoutMs + 999) / 1000)

-- ===========================================================================
-- Operation hooks (src/hooks/useNFTs.ts `useMintNFT.mintNFT`, the level-up
-- hook's `levelUp`, the coin-split hook's `splitCoin`)
-- ===========================================================================

/-- The value a resolved sign-and-execute promise carries: the settlement
digest. -/
structure SignerOk where
  digest : String
  deriving DecidableEq, Repr

/-- The `TransactionResponse` record the hooks return: `digest`, `error` and
`data` are optional fields, absent when the source object literal omits
them. -/
structure TransactionResponse where
  success : Bool
  digest : Option String
  error : Option String
  data : Option SignerOk
  deriving DecidableEq, Repr

/-- The per-hook React state: `isLoading` and the retained `error` string. -/
structure HookState where
  isLoading : Bool
  error : Option String
  deriving DecidableEq, Repr

/-- The observable run of one hook invocation: the state that holds while
the invocation is pending (after the leading `setIsLoading(true);
setError(null)`), the returned response, the state after the `finally`
clause ran, and how many times the signer capability was invoked. -/
structure OpTrace where
  pending : HookState
  response : TransactionResponse
  final : HookState
  signerCalls : Nat
  deriving Repr

/-- The common `catch`/`finally` tail of every hook: classify the caught
value, store the classified message in the error state, return the failure
response; `finally` resets `isLoading`. -/
def catchPath (err : JsVal) (signerCalls : Nat) : OpTrace :=
  let suiError := handleTransactionError err
  { pending := { isLoading := true, error := none }
    response := { success := false, digest := none
                  error := some suiError.message, data := none }
    final := { isLoading := false, error := some suiError.message }
    signerCalls := signerCalls }

/-- The common success tail: the success response carries the signer
outcome's digest and payload; `finally` resets `isLoading`, the error state
stays cleared. -/
def successPath (result : SignerOk) (signerCalls : Nat) : OpTrace :=
  { pending := { isLoading := true, error := none }
    response := { success := true, digest := some result.digest
                  error := none, data := some result }
    final := { isLoading := false, error := none }
    signerCalls := signerCalls }

/-- Embedding of `mintNFT` (src/hooks/useNFTs.ts, lines 180–221): set
loading, clear the error, build the mint transaction, await the signer once,
and normalise the outcome. The signer is the injected sign-and-execute
capability, applied to the built transaction. -/
def mintNFT (data : MintNFTData)
    (signer : Transaction → Except JsVal SignerOk) : OpTrace :=
  match signer (createMintNFTTransaction data) with
  | .ok result => successPath result 1
  | .error err => catchPath err 1

/-- Embedding of `levelUp` (src/unnamed/part_008, lines 75–116): identical
orchestration around the level-up builder. -/
def levelUp (nftId : String)
    (signer : Transaction → Except JsVal SignerOk) : OpTrace :=
  match signer (createLevelUpTransaction nftId) with
  | .ok result => successPath result 1
  | .error err => catchPath err 1

/-- An owned SUI coin as `getCoins` reports it: object id and balance (the
source's string balance after `parseInt`). -/
structure Coin where
  coinObjectId : String
  balance : Nat
  deriving DecidableEq, Repr

/-- `coins.data.reduce((largest, coin) => coin.balance > largest.balance ?
coin : largest)`: the accumulator starts at the first element, a later coin
replaces it only when strictly larger. -/
def largestCoin : Coin → List Coin → Coin
  | acc, [] => acc
  | acc, c :: rest =>
    largestCoin (if c.balance > acc.balance then c else acc) rest

/-- `coins.data.reduce((sum, coin) => sum + parseInt(coin.balance), 0)`. -/
def totalBalance (cs : List Coin) : Nat :=
  cs.foldl (fun sum coin => sum + coin.balance) 0

/-- The balance of the largest owned coin (0 when no coin is owned). -/
def largestBalance : List Coin → Nat
  | [] => 0
  | c :: rest => (largestCoin c rest).balance

/-- The `estimatedGas` constant of the split pre-flight check
(~0.01 SUI). -/
def estimatedGas : Nat := 10000000

/-- Embedding of `splitCoin` (src/unnamed/part_007, lines 104–177).
`amountInMist` is the requested amount already converted to MIST
(`requiredAmount` in the source), `coins` the `getCoins` query data (`none`
when not loaded), `account` the connected address. The three guards throw
inside the `try`, so they land in the shared `catch` without the signer ever
being invoked; past the guards, the transaction is built from the largest
coin's id and the signer is awaited exactly once. -/
def splitCoin (amountInMist : Nat) (coins : Option (List Coin))
    (account : Option String)
    (signer : Transaction → Except JsVal SignerOk) : OpTrace :=
  match coins with
  | none => catchPath (.jsError "No SUI coins found in your wallet" "") 0
  | some [] => catchPath (.jsError "No SUI coins found in your wallet" "") 0
  | some (c :: cs) =>
    if totalBalance (c :: cs) < amountInMist + estimatedGas then
      catchPath
        (.jsError "Insufficient balance for split amount plus gas fees" "") 0
    else
      if (largestCoin c cs).balance < amountInMist + estimatedGas then
        catchPath
          (.jsError
            "Largest coin does not have sufficient balance for split amount plus gas fees"
            "") 0
      else
        match signer (createCoinSplitTransaction (largestCoin c cs).coinObjectId
            (toString amountInMist) account) with
        | .ok result => successPath result 1
        | .error err => catchPath err 1

/-- The response invariants the spec states for every `NormalizedResponse`:
success carries a digest and no error, failure carries an error and no
digest, and the two fields are never set together. -/
def responseExclusive (t : OpTrace) : Prop :=
  (t.response.success = true →
    t.response.error = none ∧ ∃ d, t.response.digest = some d) ∧
  (t.response.success = false →
    t.response.digest = none ∧ ∃ m, t.response.error = some m) ∧
  ¬(t.response.digest ≠ none ∧ t.response.error ≠ none)

lemma responseExclusive_successPath (r : SignerOk) (n : Nat) :
    responseExclusive (successPath r n) := by
  simp [responseExclusive, successPath]

lemma responseExclusive_catchPath (e : JsVal) (n : Nat) :
    responseExclusive (catchPath e n) := by
  simp [responseExclusive, catchPath]

/-- Every run of `splitCoin` is either a caught failure or a success with
exactly one signer invocation; in the success case the signer resolved on
the transaction built from the largest coin. -/
lemma splitCoin_shape (amountInMist : Nat) (coins : Option (List Coin))
    (account : Option String) (signer : Transaction → Except JsVal SignerOk) :
    (∃ e n, splitCoin amountInMist coins account signer = catchPath e n) ∨
    (∃ c cs r, coins = some (c :: cs) ∧
      signer (createCoinSplitTransaction (largestCoin c cs).coinObjectId
        (toString amountInMist) account) = .ok r ∧
      splitCoin amountInMist coins account signer = successPath r 1) := by
  match coins with
  | none => exact Or.inl ⟨_, _, rfl⟩
  | some [] => exact Or.inl ⟨_, _, rfl⟩
  | some (c :: cs) =>
    simp only [splitCoin]
    split_ifs with h1 h2
    · exact Or.inl ⟨_, _, rfl⟩
    · exact Or.inl ⟨_, _, rfl⟩
    · rcases hs : signer (createCoinSplitTransaction
          (largestCoin c cs).coinObjectId (toString amountInMist) account) with
        e | r
      · exact Or.inl ⟨e, 1, rfl⟩
      · exact Or.inr ⟨c, cs, r, rfl, hs, rfl⟩

lemma pollGo_continue (client : Nat → QueryOutcome) (i fuel : Nat)
    (h : pollStep (client i) = .continuePolling) :
    pollGo client i (fuel + 1) = pollGo client (i + 1) fuel := by
  simp [pollGo, h]

lemma pollGo_done (client : Nat → QueryOutcome) (i fuel : Nat) (p : String)
    (h : pollStep (client i) = .done p) :
    pollGo client i (fuel + 1) = .ok (p, i + 1) := by
  simp [pollGo, h]

lemma pollGo_fail (client : Nat → QueryOutcome) (i fuel : Nat) (e : JsVal)
    (h : pollStep (client i) = .fail e) :
    pollGo client i (fuel + 1) = .error (e, i + 1) := by
  simp [pollGo, h]

lemma pollGo_timeout (client : Nat → QueryOutcome)
    (h : ∀ j, pollStep (client j) = .continuePolling) :
    ∀ fuel i, pollGo client i fuel
      = .error (.jsError "Transaction confirmation timeout" "", i + fuel)
  | 0, i => by simp [pollGo]
  | fuel + 1, i => by
    rw [pollGo_continue client i fuel (h i),
      pollGo_timeout client h fuel (i + 1)]
    have : i + 1 + fuel = i + (fuel + 1) := by omega
    rw [this]

lemma pollGo_done_after (client : Nat → QueryOutcome) (p : String) :
    ∀ (fuel i k : Nat), i ≤ k → k < i + fuel →
      (∀ j, i ≤ j → j < k → pollStep (client j) = .continuePolling) →
      pollStep (client k) = .done p →
      pollGo client i fuel = .ok (p, k + 1)
  | 0, i, k, hik, hk, _, _ => absurd hk (by omega)
  | fuel + 1, i, k, hik, hk, hcont, hdone => by
    rcases Nat.eq_or_lt_of_le hik with heq | hlt
    · subst heq
      exact pollGo_done client i fuel p hdone
    · rw [pollGo_continue client i fuel (hcont i le_rfl hlt)]
      exact pollGo_done_after client p fuel (i + 1) k hlt (by omega)
        (fun j hj => hcont j (by omega)) hdone

/-- The classified message is the empty string exactly when the original
failure was an `Error` whose own message was empty: every fixed branch
message and the `UNKNOWN_ERROR` generic message are non-empty, the fallback
passes the original message through verbatim, and the empty message matches
none of the five (non-empty) substrings. -/
lemma handleTransactionError_message_empty (e : JsVal) :
    (handleTransactionError e).message = "" ↔ ∃ s, e = JsVal.jsError "" s := by
  constructor
  · intro h
    cases e with
    | jsError msg stack =>
      have hmsg : msg = "" := by
        revert h
        simp only [handleTransactionError]
        split_ifs <;> intro h
        · exact absurd
            (show ("Insufficient SUI balance to complete the transaction"
                : String) = "" from h) (by decide)
        · exact absurd
            (show ("Transaction requires more gas than available"
                : String) = "" from h) (by decide)
        · exact absurd
            (show ("No separate coin available for gas fees. You may need more SUI coins or a larger balance."
                : String) = "" from h) (by decide)
        · exact absurd
            (show ("The requested object was not found on the blockchain"
                : String) = "" from h) (by decide)
        · exact absurd
            (show ("Transaction was rejected by the user"
                : String) = "" from h) (by decide)
        · exact h
      exact ⟨stack, by rw [hmsg]⟩
    | other p =>
      exact absurd
        (show ("An unknown error occurred during the transaction"
            : String) = "" from h) (by decide)
  · rintro ⟨s, rfl⟩
    rfl

-- ===========================================================================
-- Theorems
-- ===========================================================================

/-- C8: `handleTransactionError` is total (it is a plain function defined on
every failure value), retains the original failure unchanged in `details` in
every branch, and maps every non-`Error` input to code `UNKNOWN_ERROR` with
the generic message. -/
theorem C8_classifier_total (e : JsVal) :
    (handleTransactionError e).details = e ∧
    (∀ p, e = JsVal.other p →
      handleTransactionError e =
        ⟨"An unknown error occurred during the transaction",
          "UNKNOWN_ERROR", e⟩) := by
  constructor
  · cases e with
    | jsError m s =>
      simp only [handleTransactionError]
      split_ifs <;> rfl
    | other p => rfl
  · intro p hp
    subst hp
    rfl

/-- Witness for C8 at the non-`Error` value `other "42"`. -/
theorem C8_classifier_total_witness :
    handleTransactionError (JsVal.other "42") =
      ⟨"An unknown error occurred during the transaction", "UNKNOWN_ERROR",
        JsVal.other "42"⟩ :=
  (C8_classifier_total (JsVal.other "42")).2 "42" rfl

/-- C1 counterexample: the claim says matching is case-insensitive, but the
source matches with the case-sensitive `String.prototype.includes` against
the literal `'Insufficient funds'`; the all-lowercase message
`"insufficient funds"` therefore falls through to `TRANSACTION_ERROR`
instead of `INSUFFICIENT_FUNDS`. -/
theorem C1_counterexample :
    (handleTransactionError (.jsError "insufficient funds" "")).code
        = "TRANSACTION_ERROR" ∧
    (handleTransactionError (.jsError "insufficient funds" "")).code
        ≠ "INSUFFICIENT_FUNDS" := by
  decide

/-- C1 (amended): for every failure that is an `Error`, the classifier tests
the message against the fixed ordered table of literal substrings
(`Insufficient funds`, `Gas budget`, `No valid gas coins found`,
`Object not found`, `User rejected`) case-sensitively, first match wins,
yielding the corresponding code and fixed message; no match yields
`TRANSACTION_ERROR` with the original message verbatim; and the code and
message depend only on the message (determinism). -/
theorem C1_classifier_first_match (msg stack : String) :
    ((handleTransactionError (.jsError msg stack)).code,
      (handleTransactionError (.jsError msg stack)).message)
        = specClassify msg ∧
    (∀ s1 s2 : String,
      (handleTransactionError (.jsError msg s1)).code
          = (handleTransactionError (.jsError msg s2)).code ∧
      (handleTransactionError (.jsError msg s1)).message
          = (handleTransactionError (.jsError msg s2)).message) := by
  constructor
  · simp only [handleTransactionError, specClassify, errorTable, List.find?]
    by_cases h1 : strIncludes msg "Insufficient funds" <;>
      by_cases h2 : strIncludes msg "Gas budget" <;>
        by_cases h3 : strIncludes msg "No valid gas coins found" <;>
          by_cases h4 : strIncludes msg "Object not found" <;>
            by_cases h5 : strIncludes msg "User rejected" <;>
              simp [h1, h2, h3, h4, h5]
  · intro s1 s2
    simp only [handleTransactionError]
    split_ifs <;> exact ⟨rfl, rfl⟩

/-- C9: `createCoinSplitTransaction` splits the amount from the implicit gas
coin (never from a named coin object), and contains a transfer of the split
coin (the object produced by command 0) to `r` exactly when the recipient
`r` is provided; it is a total function, so construction cannot fail. -/
theorem C9_buildSplit (coinObjectId amount : String)
    (recipient : Option String) :
    TxCommand.splitCoins CoinSource.gas [amount]
        ∈ (createCoinSplitTransaction coinObjectId amount recipient).commands ∧
    (∀ src amounts, TxCommand.splitCoins src amounts
        ∈ (createCoinSplitTransaction coinObjectId amount recipient).commands →
      src = CoinSource.gas ∧ amounts = [amount]) ∧
    (∀ objs r, TxCommand.transferObjects objs r
        ∈ (createCoinSplitTransaction coinObjectId amount recipient).commands →
      recipient = some r ∧ objs = [0]) ∧
    (∀ r, recipient = some r → TxCommand.transferObjects [0] r
        ∈ (createCoinSplitTransaction coinObjectId amount recipient).commands) := by
  cases recipient <;>
    simp [createCoinSplitTransaction]

/-- Witness for C9 at a concrete coin id, amount and recipient. -/
theorem C9_buildSplit_witness :
    TxCommand.splitCoins CoinSource.gas ["5"]
        ∈ (createCoinSplitTransaction "0xc" "5" (some "0xr")).commands ∧
    TxCommand.transferObjects [0] "0xr"
        ∈ (createCoinSplitTransaction "0xc" "5" (some "0xr")).commands :=
  ⟨(C9_buildSplit "0xc" "5" (some "0xr")).1,
   (C9_buildSplit "0xc" "5" (some "0xr")).2.2.2 "0xr" rfl⟩

/-- C10: the `coinObjectId` parameter has no influence on the built
transaction — any two invocations with the same amount and recipient but
different coin ids produce identical transactions. -/
theorem C10_coinObjectId_no_influence (id1 id2 amount : String)
    (recipient : Option String) :
    createCoinSplitTransaction id1 amount recipient
      = createCoinSplitTransaction id2 amount recipient := rfl

/-- C5 counterexample to "error is a non-empty string": a signer rejection
with an `Error` whose message is the empty string falls through the
classifier to `TRANSACTION_ERROR` with the message passed through verbatim,
so the returned failure response carries `error = ""`. -/
theorem C5_counterexample :
    (mintNFT ⟨"n", "d", "u"⟩
        (fun _ => Except.error (JsVal.jsError "" ""))).response.success
      = false ∧
    (mintNFT ⟨"n", "d", "u"⟩
        (fun _ => Except.error (JsVal.jsError "" ""))).response.error
      = some "" := ⟨rfl, rfl⟩

/-- C5 (amended): every response of `mintNFT`, `levelUp` and `splitCoin`
satisfies: success implies the digest is set (to the signer outcome's
digest) and the error unset; failure implies the error is set to the
classified message of the failure — which is empty exactly when the failure
was an `Error` whose own (no-substring-match) message was empty — and the
digest unset; error and digest are never both set. -/
theorem C5_response_invariants (data : MintNFTData) (nftId : String)
    (amountInMist : Nat) (coins : Option (List Coin))
    (account : Option String)
    (signer : Transaction → Except JsVal SignerOk) :
    responseExclusive (mintNFT data signer) ∧
    responseExclusive (levelUp nftId signer) ∧
    responseExclusive (splitCoin amountInMist coins account signer) ∧
    (∀ r, signer (createMintNFTTransaction data) = .ok r →
      (mintNFT data signer).response.digest = some r.digest) ∧
    (∀ r, signer (createLevelUpTransaction nftId) = .ok r →
      (levelUp nftId signer).response.digest = some r.digest) ∧
    (∀ c cs r, coins = some (c :: cs) →
      signer (createCoinSplitTransaction (largestCoin c cs).coinObjectId
          (toString amountInMist) account) = .ok r →
      (splitCoin amountInMist coins account signer).response.success = true →
      (splitCoin amountInMist coins account signer).response.digest
        = some r.digest) ∧
    (∀ e, signer (createMintNFTTransaction data) = .error e →
      (mintNFT data signer).response.error
        = some (handleTransactionError e).message) ∧
    (∀ e, signer (createLevelUpTransaction nftId) = .error e →
      (levelUp nftId signer).response.error
        = some (handleTransactionError e).message) ∧
    ((splitCoin amountInMist coins account signer).response.success = false →
      ∃ cause, (splitCoin amountInMist coins account signer).response.error
        = some (handleTransactionError cause).message) ∧
    (∀ cause : JsVal, (handleTransactionError cause).message = ""
      ↔ ∃ s, cause = JsVal.jsError "" s) := by
  refine ⟨?_, ?_, ?_, ?_, ?_, ?_, ?_, ?_, ?_,
    fun cause => handleTransactionError_message_empty cause⟩
  · unfold mintNFT
    rcases signer (createMintNFTTransaction data) with e | r
    · exact responseExclusive_catchPath e 1
    · exact responseExclusive_successPath r 1
  · unfold levelUp
    rcases signer (createLevelUpTransaction nftId) with e | r
    · exact responseExclusive_catchPath e 1
    · exact responseExclusive_successPath r 1
  · rcases splitCoin_shape amountInMist coins account signer with
      ⟨e, n, h⟩ | ⟨c, cs, r, _, _, h⟩
    · rw [h]; exact responseExclusive_catchPath e n
    · rw [h]; exact responseExclusive_successPath r 1
  · intro r hr
    have h : mintNFT data signer = successPath r 1 := by
      unfold mintNFT; rw [hr]
    rw [h]
    rfl
  · intro r hr
    have h : levelUp nftId signer = successPath r 1 := by
      unfold levelUp; rw [hr]
    rw [h]
    rfl
  · intro c cs r hc hr hsucc
    subst hc
    rcases splitCoin_shape amountInMist (some (c :: cs)) account signer with
      ⟨e, n, h⟩ | ⟨c2, cs2, r2, hc2, hr2, h⟩
    · rw [h] at hsucc
      exact absurd hsucc (by simp [catchPath])
    · injection hc2 with hc3
      injection hc3 with hce hcs
      subst hce
      subst hcs
      rw [hr] at hr2
      injection hr2 with hrr
      subst hrr
      rw [h]
      rfl
  · intro e hr
    have h : mintNFT data signer = catchPath e 1 := by
      unfold mintNFT; rw [hr]
    rw [h]
    rfl
  · intro e hr
    have h : levelUp nftId signer = catchPath e 1 := by
      unfold levelUp; rw [hr]
    rw [h]
    rfl
  · intro hfail
    rcases splitCoin_shape amountInMist coins account signer with
      ⟨cause, n, h⟩ | ⟨c, cs, r, _, _, h⟩
    · rw [h]
      exact ⟨cause, rfl⟩
    · rw [h] at hfail
      exact absurd hfail (by simp [successPath])

/-- Witness for C5 with a resolving signer on concrete inputs. -/
theorem C5_response_invariants_witness :
    (mintNFT ⟨"n", "d", "u"⟩ (fun _ => Except.ok ⟨"DIG"⟩)).response.digest
      = some "DIG" :=
  (C5_response_invariants ⟨"n", "d", "u"⟩ "0x1" 0 none none
      (fun _ => Except.ok ⟨"DIG"⟩)).2.2.2.1 ⟨"DIG"⟩ rfl

/-- C6: the operations are total functions of their inputs (they never
throw, every failure is converted rather than propagated); whenever the
signer rejects, `mintNFT` and `levelUp` return the failure response carrying
the classified message and store the same message in the hook's error
state; every failure of `splitCoin` likewise carries a classified message
that is also stored in the error state. -/
theorem C6_failures_recovered (data : MintNFTData) (nftId : String)
    (amountInMist : Nat) (coins : Option (List Coin))
    (account : Option String)
    (signer : Transaction → Except JsVal SignerOk) (e : JsVal) :
    (signer (createMintNFTTransaction data) = .error e →
      (mintNFT data signer).response.success = false ∧
      (mintNFT data signer).response.error
        = some (handleTransactionError e).message ∧
      (mintNFT data signer).final.error
        = some (handleTransactionError e).message) ∧
    (signer (createLevelUpTransaction nftId) = .error e →
      (levelUp nftId signer).response.success = false ∧
      (levelUp nftId signer).response.error
        = some (handleTransactionError e).message ∧
      (levelUp nftId signer).final.error
        = some (handleTransactionError e).message) ∧
    ((splitCoin amountInMist coins account signer).response.success = false →
      ∃ cause, (splitCoin amountInMist coins account signer).response.error
          = some (handleTransactionError cause).message ∧
        (splitCoin amountInMist coins account signer).final.error
          = some (handleTransactionError cause).message) := by
  refine ⟨?_, ?_, ?_⟩
  · intro hr
    have h : mintNFT data signer = catchPath e 1 := by
      unfold mintNFT; rw [hr]
    rw [h]
    exact ⟨rfl, rfl, rfl⟩
  · intro hr
    have h : levelUp nftId signer = catchPath e 1 := by
      unfold levelUp; rw [hr]
    rw [h]
    exact ⟨rfl, rfl, rfl⟩
  · intro hfail
    rcases splitCoin_shape amountInMist coins account signer with
      ⟨cause, n, h⟩ | ⟨c, cs, r, _, _, h⟩
    · rw [h]
      exact ⟨cause, rfl, rfl⟩
    · rw [h] at hfail
      exact absurd hfail (by simp [successPath])

/-- Witness for C6: a signer rejecting with `User rejected the request`
yields the failure response with the classified rejection message. -/
theorem C6_failures_recovered_witness :
    (mintNFT ⟨"n", "d", "u"⟩
        (fun _ => Except.error
          (JsVal.jsError "User rejected the request" ""))).response.error
      = some "Transaction was rejected by the user" :=
  ((C6_failures_recovered ⟨"n", "d", "u"⟩ "0x1" 0 none none
      (fun _ => Except.error (JsVal.jsError "User rejected the request" ""))
      (JsVal.jsError "User rejected the request" "")).1 rfl).2.1

/-- C7: for each of the three operations, `isLoading` is `true` in the
pending window opened at invocation start and `false` after the invocation
settles, on the success path and on every failure path alike — the reset
lives in the always-executed `finally` clause, so no run leaves it true. -/
theorem C7_loading_window (data : MintNFTData) (nftId : String)
    (amountInMist : Nat) (coins : Option (List Coin))
    (account : Option String)
    (signer : Transaction → Except JsVal SignerOk) :
    (mintNFT data signer).pending.isLoading = true ∧
    (mintNFT data signer).final.isLoading = false ∧
    (levelUp nftId signer).pending.isLoading = true ∧
    (levelUp nftId signer).final.isLoading = false ∧
    (splitCoin amountInMist coins account signer).pending.isLoading = true ∧
    (splitCoin amountInMist coins account signer).final.isLoading = false := by
  have hm : ∀ t : OpTrace, (∃ e n, t = catchPath e n) ∨
      (∃ r n, t = successPath r n) →
      t.pending.isLoading = true ∧ t.final.isLoading = false := by
    rintro t (⟨e, n, rfl⟩ | ⟨r, n, rfl⟩) <;> exact ⟨rfl, rfl⟩
  have h1 : (∃ e n, mintNFT data signer = catchPath e n) ∨
      (∃ r n, mintNFT data signer = successPath r n) := by
    unfold mintNFT
    rcases signer (createMintNFTTransaction data) with e | r
    · exact Or.inl ⟨e, 1, rfl⟩
    · exact Or.inr ⟨r, 1, rfl⟩
  have h2 : (∃ e n, levelUp nftId signer = catchPath e n) ∨
      (∃ r n, levelUp nftId signer = successPath r n) := by
    unfold levelUp
    rcases signer (createLevelUpTransaction nftId) with e | r
    · exact Or.inl ⟨e, 1, rfl⟩
    · exact Or.inr ⟨r, 1, rfl⟩
  have h3 : (∃ e n, splitCoin amountInMist coins account signer = catchPath e n) ∨
      (∃ r n, splitCoin amountInMist coins account signer = successPath r n) := by
    rcases splitCoin_shape amountInMist coins account signer with
      ⟨e, n, h⟩ | ⟨c, cs, r, _, _, h⟩
    · exact Or.inl ⟨e, n, h⟩
    · exact Or.inr ⟨r, 1, h⟩
  obtain ⟨p1, f1⟩ := hm _ h1
  obtain ⟨p2, f2⟩ := hm _ h2
  obtain ⟨p3, f3⟩ := hm _ h3
  exact ⟨p1, f1, p2, f2, p3, f3⟩

/-- C3: at the default 30000 ms timeout and the fixed 1-second tick, a
status source whose queries throw `not found` on the first two ticks and
report terminal success on the third makes `waitForTransaction` return the
success payload after exactly 3 queries; and a status source that never
reaches a terminal state makes it fail with the timeout error after exactly
30 queries. -/
theorem C3_polling_schedule (client : Nat → QueryOutcome) (p m s : String) :
    ((∀ i, i < 2 → client i = .threw (.jsError m s)) →
      strIncludes m "not found" = true →
      client 2 = .ok (.success p) →
      waitForTransaction client 30000 = .ok (p, 3)) ∧
    ((∀ i, pollStep (client i) = .continuePolling) →
      waitForTransaction client 30000
        = .error (.jsError "Transaction confirmation timeout" "", 30)) := by
  have hfuel : (30000 + 999) / 1000 = 30 := by norm_num
  constructor
  · intro hnf hm h2
    unfold waitForTransaction
    rw [hfuel]
    refine pollGo_done_after client p 30 0 2 (by omega) (by omega) ?_ ?_
    · intro j _ hj
      rw [hnf j hj]
      simp [pollStep, hm]
    · rw [h2]
      rfl
  · intro hcont
    unfold waitForTransaction
    rw [hfuel]
    exact pollGo_timeout client hcont 30 0

/-- Witness for C3 at two concrete status sources. -/
theorem C3_polling_schedule_witness :
    waitForTransaction
        (fun i => if i < 2 then .threw (.jsError "tx digest not found" "")
                  else .ok (.success "PAYLOAD")) 30000
      = .ok ("PAYLOAD", 3) ∧
    waitForTransaction (fun _ => .ok .pending) 30000
      = .error (.jsError "Transaction confirmation timeout" "", 30) :=
  ⟨(C3_polling_schedule
      (fun i => if i < 2 then .threw (.jsError "tx digest not found" "")
                else .ok (.success "PAYLOAD")) "PAYLOAD" "tx digest not found"
      "").1
    (by
      intro i hi
      interval_cases i <;> rfl)
    (by decide) rfl,
   (C3_polling_schedule (fun _ => .ok .pending) "p" "m" "s").2 (fun _ => rfl)⟩

/-- C4 counterexample: a status source that always reports terminal failure
with remote reason `Object not found` does not make the poller fail with
the `Transaction failed: Object not found` error the claim requires — the
thrown error is caught by the poller's own `not found` filter, polling
continues, and the run ends in the timeout error instead. -/
theorem C4_counterexample :
    waitForTransaction (fun _ => .ok (.failure "Object not found")) 30000
      = .error (.jsError "Transaction confirmation timeout" "", 30) ∧
    (JsVal.jsError "Transaction confirmation timeout" "")
      ≠ .jsError "Transaction failed: Object not found" "" := by
  constructor
  · rfl
  · decide

/-- C4 (amended): a query failure that is an `Error` whose message contains
`not found` is treated as not-yet-settled and polling continues; a query
failure that is an `Error` without `not found` in its message is propagated
immediately, ending the loop; a non-`Error` query failure is swallowed and
polling continues; a terminal-failure status produces the
`Transaction failed: <reason>` error and ends the loop — unless that
message itself contains `not found` (e.g. a remote reason mentioning
`not found`), in which case it is swallowed and polling continues. -/
theorem C4_query_failure_policy (m s p reason : String)
    (client : Nat → QueryOutcome) (i fuel : Nat) (e : JsVal) :
    (strIncludes m "not found" = true →
      pollStep (.threw (.jsError m s)) = .continuePolling) ∧
    (strIncludes m "not found" = false →
      pollStep (.threw (.jsError m s)) = .fail (.jsError m s)) ∧
    (pollStep (.threw (.other p)) = .continuePolling) ∧
    (strIncludes ("Transaction failed: " ++ reason) "not found" = false →
      pollStep (.ok (.failure reason))
        = .fail (.jsError ("Transaction failed: " ++ reason) "")) ∧
    (strIncludes ("Transaction failed: " ++ reason) "not found" = true →
      pollStep (.ok (.failure reason)) = .continuePolling) ∧
    (pollStep (client i) = .fail e →
      pollGo client i (fuel + 1) = .error (e, i + 1)) ∧
    (pollStep (client i) = .continuePolling →
      pollGo client i (fuel + 1) = pollGo client (i + 1) fuel) := by
  refine ⟨?_, ?_, rfl, ?_, ?_, ?_, ?_⟩
  · intro h; simp [pollStep, h]
  · intro h; simp [pollStep, h]
  · intro h; simp [pollStep, h]
  · intro h; simp [pollStep, h]
  · exact pollGo_fail client i fuel e
  · exact pollGo_continue client i fuel

/-- Witness for C4: a query rejection with message `boom` (no `not found`)
propagates out of the loop after a single query. -/
theorem C4_query_failure_policy_witness :
    pollGo (fun _ => .threw (.jsError "boom" "")) 0 30
      = .error (.jsError "boom" "", 1) :=
  (C4_query_failure_policy "boom" "" "p" "r"
      (fun _ => .threw (.jsError "boom" "")) 0 29
      (.jsError "boom" "")).2.2.2.2.2.1 (by decide)

/-- C2: the pre-flight balance check of `splitCoin`. If the account owns no
SUI coins, or the sum of the owned balances is below the requested amount
plus the fixed 10,000,000 overhead, or the single largest coin's balance is
below the requested amount plus the overhead, `splitCoin` returns a failure
response carrying the corresponding insufficient-balance message and the
signer is never invoked; otherwise the guard passes and the signer is
invoked exactly once. -/
theorem C2_split_preflight (amountInMist : Nat) (coins : List Coin)
    (account : Option String)
    (signer : Transaction → Except JsVal SignerOk) :
    ((coins = [] ∨ totalBalance coins < amountInMist + estimatedGas ∨
        largestBalance coins < amountInMist + estimatedGas) →
      (splitCoin amountInMist (some coins) account signer).signerCalls = 0 ∧
      (splitCoin amountInMist (some coins) account signer).response.success
        = false ∧
      ((splitCoin amountInMist (some coins) account signer).response.error
          = some "No SUI coins found in your wallet" ∨
        (splitCoin amountInMist (some coins) account signer).response.error
          = some "Insufficient balance for split amount plus gas fees" ∨
        (splitCoin amountInMist (some coins) account signer).response.error
          = some "Largest coin does not have sufficient balance for split amount plus gas fees")) ∧
    (¬(coins = [] ∨ totalBalance coins < amountInMist + estimatedGas ∨
        largestBalance coins < amountInMist + estimatedGas) →
      (splitCoin amountInMist (some coins) account signer).signerCalls = 1) := by
  match coins with
  | [] =>
    refine ⟨fun _ => ⟨rfl, rfl, Or.inl ?_⟩, fun h => absurd (Or.inl rfl) h⟩
    rfl
  | c :: cs =>
    constructor
    · intro hguard
      by_cases h1 : totalBalance (c :: cs) < amountInMist + estimatedGas
      · have h : splitCoin amountInMist (some (c :: cs)) account signer
            = catchPath
              (.jsError "Insufficient balance for split amount plus gas fees"
                "") 0 := by
          simp only [splitCoin]
          rw [if_pos h1]
        rw [h]
        exact ⟨rfl, rfl, Or.inr (Or.inl rfl)⟩
      · have h2 : (largestCoin c cs).balance < amountInMist + estimatedGas := by
          rcases hguard with hg | hg | hg
          · cases hg
          · exact absurd hg h1
          · exact hg
        have h : splitCoin amountInMist (some (c :: cs)) account signer
            = catchPath
              (.jsError
                "Largest coin does not have sufficient balance for split amount plus gas fees"
                "") 0 := by
          simp only [splitCoin]
          rw [if_neg h1, if_pos h2]
        rw [h]
        exact ⟨rfl, rfl, Or.inr (Or.inr rfl)⟩
    · intro hguard
      push_neg at hguard
      obtain ⟨-, h1, h2⟩ := hguard
      have h1n : ¬totalBalance (c :: cs) < amountInMist + estimatedGas := by
        omega
      have h2n : ¬(largestCoin c cs).balance < amountInMist + estimatedGas := by
        have : largestBalance (c :: cs) = (largestCoin c cs).balance := rfl
        omega
      simp only [splitCoin]
      rw [if_neg h1n, if_neg h2n]
      rcases signer (createCoinSplitTransaction (largestCoin c cs).coinObjectId
          (toString amountInMist) account) with e | r
      · rfl
      · rfl

/-- Witness for C2 at the spec's two concrete scenarios: total 5,000,000,000
with a requested 4,995,000,000 fails fast with the signer never invoked;
one coin of 20,000,000,000 with a requested 1,000,000,000 passes the guard
and invokes the signer exactly once. -/
theorem C2_split_preflight_witness :
    ((splitCoin 4995000000
        (some [⟨"0xa", 3000000000⟩, ⟨"0xb", 2000000000⟩]) none
        (fun _ => Except.ok ⟨"D"⟩)).signerCalls = 0 ∧
      (splitCoin 4995000000
        (some [⟨"0xa", 3000000000⟩, ⟨"0xb", 2000000000⟩]) none
        (fun _ => Except.ok ⟨"D"⟩)).response.success = false) ∧
    (splitCoin 1000000000 (some [⟨"0xa", 20000000000⟩]) none
        (fun _ => Except.ok ⟨"D"⟩)).signerCalls = 1 := by
  refine ⟨⟨?_, ?_⟩, ?_⟩
  · exact ((C2_split_preflight 4995000000
      [⟨"0xa", 3000000000⟩, ⟨"0xb", 2000000000⟩] none
      (fun _ => Except.ok ⟨"D"⟩)).1 (by right; left; decide)).1
  · exact ((C2_split_preflight 4995000000
      [⟨"0xa", 3000000000⟩, ⟨"0xb", 2000000000⟩] none
      (fun _ => Except.ok ⟨"D"⟩)).1 (by right; left; decide)).2.1
  · exact (C2_split_preflight 1000000000 [⟨"0xa", 20000000000⟩] none
      (fun _ => Except.ok ⟨"D"⟩)).2 (by decide)

end DappTest
